import Mathlib

/-
Verification of the RLHive episode-loop core: shallow embedding of
src/hive/envs/base.py, src/hive/envs/gym_env.py and
src/hive/runners/single_agent_loop.py, together with theorems settling the
behavioural claims about tuple-arity normalization, turn rotation, episode
termination, metrics accumulation, transition buffering and error handling.

Python values that only flow through the code (observations, rewards as seen
by GymEnv.step, info dictionaries) are modelled by an abstract type `V`
together with a truthiness function, matching Python dynamic typing; Python
exceptions are modelled by the `PyErr` type and fallible calls return
`Except PyErr`.
-/

/-- Python exception classes relevant to the embedded code: TypeError
(raised by bad argument binding and by the old gym reset API), ValueError
(raised by GymEnv.step on unexpected tuple arity) and a catch-all for any
other runtime exception coming out of the wrapped environment. -/
inductive PyErr where
  | typeError (msg : String)
  | valueError (msg : String)
  | other (msg : String)
deriving Repr, DecidableEq

/-- Python `a or b`: returns `a` when `a` is truthy, otherwise `b`. -/
def pyOr {V : Type} (truthy : V → Bool) (a b : V) : V :=
  if truthy a then a else b

/-- The 5-tuple `(observation, reward, done, self._turn, info)` returned by
GymEnv.step (src/hive/envs/gym_env.py line 96). The first three and the last
components are Python values; the turn is the wrapper's own counter. -/
structure GymEnv.StepReturn (V : Type) where
  observation : V
  reward : V
  done : V
  turn : Nat
  info : V

/-- GymEnv.step (src/hive/envs/gym_env.py lines 85-96). The wrapped
environment's raw result is `stepResult` (an `Except` because the external
call may itself raise, in which case the exception propagates untouched). A
5-element result is read as (observation, reward, terminated, truncated,
info) with `done = terminated or truncated` (Python `or`); a 4-element
result is read as (observation, reward, done, info) with done passed through
unchanged; any other length raises ValueError. On success `self._turn` is
advanced to `(self._turn + 1) % self._num_players` and returned. -/
def GymEnv.step {V : Type} (truthy : V → Bool) (numPlayers turn : Nat)
    (stepResult : Except PyErr (List V)) : Except PyErr (GymEnv.StepReturn V) :=
  match stepResult with
  | Except.error e => Except.error e
  | Except.ok res =>
    match res with
    | [observation, reward, terminated, truncated, info] =>
        Except.ok ⟨observation, reward, pyOr truthy terminated truncated,
          (turn + 1) % numPlayers, info⟩
    | [observation, reward, done, info] =>
        Except.ok ⟨observation, reward, done, (turn + 1) % numPlayers, info⟩
    | l => Except.error (PyErr.valueError
        ("Unexpected step return length: " ++ toString l.length))

/-- The seed resolution at the top of GymEnv.reset (src/hive/envs/gym_env.py
lines 71-72): `if seed is None: seed = self._seed`. -/
def GymEnv.resolveSeed (seedArg stored : Option Int) : Option Int :=
  match seedArg with
  | none => stored
  | some s => some s

/-- The `obs = self._env.reset()` tail of the old-API fallback in
GymEnv.reset (line 82): an exception from the wrapped call propagates,
otherwise the initial observation is paired with the unchanged `self._turn`. -/
def GymEnv.oldApiResetTail {O : Type} (oldReset : Except PyErr O) (turn : Nat) :
    Except PyErr (O × Nat) :=
  match oldReset with
  | Except.error e => Except.error e
  | Except.ok obs => Except.ok (obs, turn)

/-- The `except TypeError:` body of GymEnv.reset (lines 79-83): when the
resolved seed is present, `self._env.seed(seed)` runs first and its
exceptions propagate; then the old-API reset runs. -/
def GymEnv.oldApiPath {O : Type} (seed : Option Int)
    (oldSeed : Int → Except PyErr Unit) (oldReset : Except PyErr O)
    (turn : Nat) : Except PyErr (O × Nat) :=
  match seed with
  | some s =>
      match oldSeed s with
      | Except.error e => Except.error e
      | Except.ok _ => GymEnv.oldApiResetTail oldReset turn
  | none => GymEnv.oldApiResetTail oldReset turn

/-- GymEnv.reset (src/hive/envs/gym_env.py lines 70-83). `newApi` is the
gym >= 0.26 call `self._env.reset(seed=seed)` returning (obs, info); a
TypeError from it is caught and the old-API path is substituted; any other
exception propagates. The returned turn is the wrapper's `self._turn`,
which reset never modifies. -/
def GymEnv.reset {O V : Type} (seedArg stored : Option Int)
    (newApi : Option Int → Except PyErr (O × V))
    (oldSeed : Int → Except PyErr Unit) (oldReset : Except PyErr O)
    (turn : Nat) : Except PyErr (O × Nat) :=
  match newApi (GymEnv.resolveSeed seedArg stored) with
  | Except.ok p => Except.ok (p.1, turn)
  | Except.error (PyErr.typeError _) =>
      GymEnv.oldApiPath (GymEnv.resolveSeed seedArg stored) oldSeed oldReset turn
  | Except.error e => Except.error e

/-- Python `try: call except Exception: pass` — the call's outcome is
discarded whether it succeeded or raised. -/
def pyTryExceptPass (call : Except String Unit) : Unit :=
  match call with
  | Except.ok u => u
  | Except.error _ => ()

/-- GymEnv.set_seed (src/hive/envs/gym_env.py lines 26-32): stores
`int(seed)`, then seeds the action space and the observation space, each
inside `try: ... except Exception: pass`, so a failure of either seeding
call is swallowed. The result is the stored seed; the method itself never
raises. -/
def GymEnv.set_seed (seed : Int) (actionSpaceSeed obsSpaceSeed : Except String Unit) :
    Except String Int :=
  let _ua := pyTryExceptPass actionSpaceSeed
  let _uo := pyTryExceptPass obsSpaceSeed
  Except.ok seed

/-- BaseEnv.__init__ (src/hive/envs/base.py lines 9-10): it binds no
parameters besides `self` and sets `self._env_spec = None`. Python argument
binding rejects any extra positional arguments with a TypeError before the
body runs; the model takes the list of extra positional arguments passed by
a caller. -/
def BaseEnv.init {V : Type} (extraPosArgs : List V) : Except PyErr (Option V) :=
  match extraPosArgs with
  | [] => Except.ok none
  | args => Except.error (PyErr.typeError
      ("__init__() takes 1 positional argument but " ++
        toString (args.length + 1) ++ " were given"))

/-- GymEnv.__init__ (src/hive/envs/gym_env.py lines 12-24): after setting
`self._seed = None` and creating the wrapped environment, it calls
`super().__init__(self.create_env_spec(env_name, **kwargs), num_players)`.
The external `gym.make` and spec creation are assumed to succeed and their
results are the two argument values handed to BaseEnv.__init__. -/
def GymEnv.init {V : Type} (envSpecVal numPlayersVal : V) : Except PyErr (Option V) :=
  BaseEnv.init [envSpecVal, numPlayersVal]

/-- The turn counter after m accepted steps when it starts from 0: each
accepted step applies the update `turn = (turn + 1) % numPlayers` performed
by GymEnv.step (src/hive/envs/gym_env.py line 95). -/
def GymEnv.turn_after (numPlayers : Nat) : Nat → Nat
  | 0 => 0
  | m + 1 => (GymEnv.turn_after numPlayers m + 1) % numPlayers

/-- Modelled from the spec: TransitionInfo (hive/runners/utils.py, which is
not under src/) is the StackedObservationBuffer of spec section 4.2 for the
single acting agent: an ordered, fixed-capacity sequence of the last N raw
observations, oldest first. The stacked observation handed to the agent is
the concatenation of the buffered observations in chronological order,
i.e. this list itself. -/
structure TransitionInfo (O : Type) where
  stack : List O

/-- Modelled from the spec: `start(agent, initial_observation)` of spec
section 4.2 fills the agent's ring buffer with N copies of the initial
observation; invoked by SingleAgentRunner.run_episode
(src/hive/runners/single_agent_loop.py lines 114-115) right after the
environment reset. -/
def TransitionInfo.start_agent {O : Type} (stackSize : Nat) (obs : O) :
    TransitionInfo O :=
  ⟨List.replicate stackSize obs⟩

/-- Modelled from the spec: `get_stacked(agent, new_observation)` of spec
section 4.2 pushes the new observation (evicting the oldest buffered one)
and returns the concatenation of the N buffered observations oldest first —
a mutating read, so the updated buffer is returned alongside. -/
def TransitionInfo.get_stacked_state {O : Type} (t : TransitionInfo O) (obs : O) :
    List O × TransitionInfo O :=
  let pushed := t.stack.drop 1 ++ [obs]
  (pushed, ⟨pushed⟩)

/-- A sequence of pushes into the stacked-observation buffer, in order. -/
def TransitionInfo.push_all {O : Type} (t : TransitionInfo O) (os : List O) :
    TransitionInfo O :=
  os.foldl (fun acc o => (acc.get_stacked_state o).2) t

/-- The per-episode metrics record of SingleAgentRunner
(src/hive/runners/single_agent_loop.py lines 103-105): single-agent mode has
one agent entry {reward, episode_length} plus the global full_episode_length. -/
structure EpisodeMetrics where
  reward : Int
  episode_length : Nat
  full_episode_length : Nat

/-- Modelled from the spec: Runner.create_episode_metrics
(hive/runners/base.py, which is not under src/), called at the top of
run_episode. Spec section 3: EpisodeMetrics are created fresh at the start
of every episode, with all running aggregates zero. -/
def Runner.create_episode_metrics : EpisodeMetrics :=
  ⟨0, 0, 0⟩

/-- Modelled from the spec: Runner.run_one_step (hive/runners/base.py, which
is not under src/), the base-class hook invoked first by
SingleAgentRunner.run_one_step (line 72). The spec's step sequence (section
4.1) assigns it no effect on records or buffers, and section 3 says each
metric is mutated exactly once per step, so on the state relevant here it is
the identity on the episode metrics. -/
def Runner.run_one_step (m : EpisodeMetrics) : EpisodeMetrics :=
  m

/-- The already-unpacked result of `self._environment.step(action)` as
consumed by SingleAgentRunner.run_one_step (line 78): next observation,
reward, done flag, turn (ignored by the single-agent runner) and the info
payload (abstracted to a number). -/
structure EnvStepRes (O : Type) where
  nextObservation : O
  reward : Int
  done : Bool
  turn : Nat
  info : Nat

/-- The transition dictionary built by SingleAgentRunner.run_one_step
(lines 80-100): {observation, reward, action, done, info}. The observation
slot holds either a raw observation (left) or a stacked one (right),
matching the two ways the code fills it. -/
structure TransitionRecord (O A : Type) where
  observation : O ⊕ List O
  reward : Int
  action : A
  done : Bool
  info : Nat

/-- Everything one call of SingleAgentRunner.run_one_step produces: the
record passed to `agent.update` (none when not training — the deep copy
means later mutation of the dict is invisible to the agent), the record
passed to `self._transition_info.record_info`, the updated metrics, the
done flag and next observation returned to run_episode, and the updated
stacked-observation buffer. -/
structure OneStepResult (O A : Type) where
  updateRecord : Option (TransitionRecord O A)
  recordedRecord : TransitionRecord O A
  metrics : EpisodeMetrics
  done : Bool
  nextObservation : O
  transitionInfo : TransitionInfo O

/-- SingleAgentRunner.run_one_step (src/hive/runners/single_agent_loop.py
lines 64-107). It calls the base hook, takes the stacked observation (a
mutating read on the buffer), acts, steps the environment (result `env`),
then builds the transition dict: under "fifo" with the raw observation;
otherwise (the "lofo" branch) with the stacked observation, and after the
update call overwrites the observation slot with the raw observation. The
dict is then recorded and the three metrics are each incremented once. -/
def SingleAgentRunner.run_one_step {O A : Type} (learning_buffer : String)
    (training : Bool) (act : List O → A) (env : EnvStepRes O)
    (observation : O) (ti : TransitionInfo O) (m : EpisodeMetrics) :
    OneStepResult O A :=
  let m0 := Runner.run_one_step m
  let stackedPair := ti.get_stacked_state observation
  let stacked_observation := stackedPair.1
  let ti' := stackedPair.2
  let action := act stacked_observation
  let recPair : Option (TransitionRecord O A) × TransitionRecord O A :=
    if learning_buffer = "fifo" then
      let info : TransitionRecord O A :=
        ⟨Sum.inl observation, env.reward, action, env.done, env.info⟩
      (if training then some info else none, info)
    else
      let info : TransitionRecord O A :=
        ⟨Sum.inr stacked_observation, env.reward, action, env.done, env.info⟩
      (if training then some info else none,
       { info with observation := Sum.inl observation })
  { updateRecord := recPair.1
    recordedRecord := recPair.2
    metrics := ⟨m0.reward + recPair.2.reward, m0.episode_length + 1,
      m0.full_episode_length + 1⟩
    done := env.done
    nextObservation := env.nextObservation
    transitionInfo := ti' }

/-- The while loop of SingleAgentRunner.run_episode (lines 117-120):
`while not done and steps < max_steps_per_episode` — `remaining` is the
number of loop iterations still allowed (max_steps_per_episode minus the
steps already taken) and `steps` the count of run_one_step calls so far.
The environment's responses are given as the trace `env`, indexed by the
step counter at the time of the call. Returns the final metrics and the
total number of run_one_step calls. -/
def SingleAgentRunner.runLoop {O A : Type} (learning_buffer : String)
    (training : Bool) (act : List O → A) (env : Nat → EnvStepRes O) :
    Nat → Nat → O → TransitionInfo O → EpisodeMetrics → EpisodeMetrics × Nat
  | 0, steps, _, _, m => (m, steps)
  | remaining + 1, steps, obs, ti, m =>
      let res := SingleAgentRunner.run_one_step learning_buffer training act
        (env steps) obs ti m
      if res.done then (res.metrics, steps + 1)
      else SingleAgentRunner.runLoop learning_buffer training act env remaining
        (steps + 1) res.nextObservation res.transitionInfo res.metrics

/-- SingleAgentRunner.run_episode (src/hive/runners/single_agent_loop.py
lines 109-122): fresh metrics, environment reset yielding the initial
observation `initObs`, buffer reset and start for the acting agent, then
the step loop bounded by max_steps_per_episode. -/
def SingleAgentRunner.run_episode {O A : Type} (learning_buffer : String)
    (training : Bool) (act : List O → A) (env : Nat → EnvStepRes O)
    (stackSize maxSteps : Nat) (initObs : O) : EpisodeMetrics × Nat :=
  SingleAgentRunner.runLoop learning_buffer training act env maxSteps 0 initObs
    (TransitionInfo.start_agent stackSize initObs) Runner.create_episode_metrics

/-- The learning-buffer validation in SingleAgentRunner.__init__
(src/hive/runners/single_agent_loop.py lines 60-62): a value outside
{"fifo", "lofo"} raises ValueError at construction time; otherwise the
value is stored. -/
def SingleAgentRunner.validate_learning_buffer (learning_buffer : String) :
    Except String String :=
  if learning_buffer ∉ (["fifo", "lofo"] : List String) then
    Except.error ("Unsupported learning_buffer type: " ++ learning_buffer ++
      ". Valid options are: fifo, lofo")
  else Except.ok learning_buffer

/-- Truthiness on a boolean Python value. -/
def boolTruthy (b : Bool) : Bool :=
  b

/-- Truthiness on an integer-coded Python value: nonzero is truthy. -/
def natTruthy (n : Nat) : Bool :=
  n != 0

/-- A concrete agent policy on numeric observations: act on the length of
the stacked observation. -/
def actLen (stacked : List Nat) : Nat :=
  stacked.length

/-- A concrete new-API reset call that succeeds with observation 7 and an
empty info payload, regardless of the seed. -/
def newApiConst : Option Int → Except PyErr (Nat × Nat) :=
  fun _ => Except.ok (7, 0)

/-- A concrete new-API reset call that raises a non-TypeError exception. -/
def newApiBoom : Option Int → Except PyErr (Nat × Nat) :=
  fun _ => Except.error (PyErr.other "RuntimeError: boom")

/-- A concrete new-API reset call that raises TypeError, as an old-gym
environment does when handed the seed keyword argument. -/
def newApiTypeErr : Option Int → Except PyErr (Nat × Nat) :=
  fun _ => Except.error (PyErr.typeError "reset got an unexpected keyword argument seed")

/-- A concrete old-API env.seed call that succeeds. -/
def oldSeedNoop : Int → Except PyErr Unit :=
  fun _ => Except.ok ()

/-- A concrete old-API env.reset call that succeeds with observation 7. -/
def oldResetConst : Except PyErr Nat :=
  Except.ok 7

/-- A concrete environment step result: next observation 7, reward 3, not
done. -/
def envResA : EnvStepRes Nat :=
  ⟨7, 3, false, 0, 9⟩

/-- A concrete environment trace whose step results are never done. -/
def envSeqNever : Nat → EnvStepRes Nat :=
  fun i => ⟨i, 1, false, 0, 0⟩

/-- A concrete environment trace that signals done on its second step
(index 1) and not before. -/
def envSeqDoneAt1 : Nat → EnvStepRes Nat :=
  fun i => ⟨i, 1, i == 1, 0, 0⟩

/-- A concrete stacked-observation buffer holding two observations. -/
def tiA : TransitionInfo Nat :=
  ⟨[1, 2]⟩

/-- C1: for every result returned by the wrapped environment's step call,
GymEnv.step with a 5-tuple (observation, reward, terminated, truncated,
info) reports done = terminated OR truncated (Python or, whose truth
value is the disjunction of the operands' truth values); with a 4-tuple
(observation, reward, done, info) it passes the done flag through
unchanged; and for a tuple of any other length it raises a ValueError
immediately instead of guessing a field mapping. -/
theorem step_tuple_arity_normalization {V : Type} (truthy : V → Bool)
    (P t : Nat) :
    (∀ o r te tr i : V,
      GymEnv.step truthy P t (Except.ok [o, r, te, tr, i]) =
        Except.ok ⟨o, r, pyOr truthy te tr, (t + 1) % P, i⟩) ∧
    (∀ te tr : V, truthy (pyOr truthy te tr) = (truthy te || truthy tr)) ∧
    (∀ o r d i : V,
      GymEnv.step truthy P t (Except.ok [o, r, d, i]) =
        Except.ok ⟨o, r, d, (t + 1) % P, i⟩) ∧
    (∀ l : List V, l.length ≠ 4 → l.length ≠ 5 →
      GymEnv.step truthy P t (Except.ok l) =
        Except.error (PyErr.valueError
          ("Unexpected step return length: " ++ toString l.length))) := by
  refine ⟨fun o r te tr i => rfl, fun te tr => ?_, fun o r d i => rfl, ?_⟩
  · unfold pyOr
    by_cases h : truthy te <;> simp [h]
  · intro l h4 h5
    rcases l with _ | ⟨a, _ | ⟨b, _ | ⟨c, _ | ⟨d, _ | ⟨e, _ | ⟨f, tail⟩⟩⟩⟩⟩⟩ <;>
      first
        | rfl
        | exact absurd rfl h4
        | exact absurd rfl h5

/-- Witness for C1 at concrete inputs: the empty result tuple (arity 0)
yields the ValueError. -/
theorem step_tuple_arity_normalization_w :
    GymEnv.step boolTruthy 2 0 (Except.ok ([] : List Bool)) =
      Except.error (PyErr.valueError
        ("Unexpected step return length: " ++ toString (List.length ([] : List Bool)))) :=
  (step_tuple_arity_normalization boolTruthy 2 0).2.2.2 []
    (by decide) (by decide)

/-- C4: for every env-spec value and num_players value, constructing a
GymEnv fails: GymEnv.__init__ passes two positional arguments to
BaseEnv.__init__, which accepts none beyond self, so Python raises a
TypeError before the constructor completes — no successfully constructed
GymEnv instance exists and reset/step/seed are unreachable through this
class. -/
theorem gym_env_construction_type_error {V : Type} (envSpecVal numPlayersVal : V) :
    GymEnv.init envSpecVal numPlayersVal =
      Except.error (PyErr.typeError
        ("__init__() takes 1 positional argument but " ++ toString ((2 : Nat) + 1) ++
          " were given")) :=
  rfl

/-- C8: constructing the runner with a learning_buffer value outside
the set with members "fifo" and "lofo" raises a ValueError immediately at
construction time, before any episode runs, and constructing it with
"fifo" or "lofo" does not raise for this reason. -/
theorem learning_buffer_validation (lb : String) :
    (lb ∉ (["fifo", "lofo"] : List String) →
      SingleAgentRunner.validate_learning_buffer lb =
        Except.error ("Unsupported learning_buffer type: " ++ lb ++
          ". Valid options are: fifo, lofo")) ∧
    SingleAgentRunner.validate_learning_buffer "fifo" = Except.ok "fifo" ∧
    SingleAgentRunner.validate_learning_buffer "lofo" = Except.ok "lofo" := by
  refine ⟨fun h => ?_, rfl, rfl⟩
  simp [SingleAgentRunner.validate_learning_buffer, h]

/-- Witness for C8 at a concrete input: the value "bogus" is rejected at
construction time. -/
theorem learning_buffer_validation_w :
    SingleAgentRunner.validate_learning_buffer "bogus" =
      Except.error ("Unsupported learning_buffer type: " ++ "bogus" ++
        ". Valid options are: fifo, lofo") :=
  (learning_buffer_validation "bogus").1 (by decide)

/-- Helper: whenever the old-API fallback of GymEnv.reset returns
successfully, the returned turn is the wrapper's unchanged turn counter. -/
theorem oldApiPath_turn {O : Type} (seed : Option Int)
    (oldSeed : Int → Except PyErr Unit) (oldReset : Except PyErr O)
    (turn : Nat) (obs : O) (tr : Nat)
    (h : GymEnv.oldApiPath seed oldSeed oldReset turn = Except.ok (obs, tr)) :
    tr = turn := by
  rcases seed with _ | s <;>
    simp only [GymEnv.oldApiPath] at h
  · rcases hr : oldReset with e | o <;>
      simp [GymEnv.oldApiResetTail, hr] at h
    exact h.2.symm
  · rcases hs : oldSeed s with e | u <;> simp [hs] at h
    rcases hr : oldReset with e | o <;>
      simp [GymEnv.oldApiResetTail, hr] at h
    exact h.2.symm

/-- C9 counterexample: the claim says every exception raised by the
environment during seeding propagates unmodified, but GymEnv.set_seed
swallows a RuntimeError raised by the action-space seeding call
(`try ... except Exception: pass`) and returns normally at this concrete
input. -/
theorem set_seed_suppresses_exception_cex :
    GymEnv.set_seed 42 (Except.error "RuntimeError: boom") (Except.ok ()) =
      Except.ok 42 :=
  rfl

/-- C9 (amended): exceptions raised by the wrapped environment during step
propagate unmodified, and exceptions during reset other than a TypeError
from the new-API reset call propagate unmodified; however, a TypeError from
the new-API reset call is caught and the old-API call path (env.seed
followed by env.reset) is substituted for it, and any exception raised by
the action-space or observation-space seeding calls inside set_seed is
suppressed entirely (set_seed always returns normally). -/
theorem exception_propagation_amended {V : Type} (t : Nat) :
    (∀ (truthy : V → Bool) (P : Nat) (e : PyErr),
      GymEnv.step truthy P t (Except.error e) = Except.error e) ∧
    (∀ (O : Type) (sa st : Option Int)
      (napi : Option Int → Except PyErr (O × V))
      (osd : Int → Except PyErr Unit) (ors : Except PyErr O) (msg : String),
      napi (GymEnv.resolveSeed sa st) = Except.error (PyErr.other msg) →
      GymEnv.reset sa st napi osd ors t = Except.error (PyErr.other msg)) ∧
    (∀ (O : Type) (sa st : Option Int)
      (napi : Option Int → Except PyErr (O × V))
      (osd : Int → Except PyErr Unit) (ors : Except PyErr O) (msg : String),
      napi (GymEnv.resolveSeed sa st) = Except.error (PyErr.typeError msg) →
      GymEnv.reset sa st napi osd ors t =
        GymEnv.oldApiPath (GymEnv.resolveSeed sa st) osd ors t) ∧
    (∀ (s : Int) (a o : Except String Unit),
      GymEnv.set_seed s a o = Except.ok s) := by
  refine ⟨fun truthy P e => rfl, ?_, ?_, fun s a o => rfl⟩
  · intro O sa st napi osd ors msg h
    simp [GymEnv.reset, h]
  · intro O sa st napi osd ors msg h
    simp [GymEnv.reset, h]

/-- Witness for C9 (amended) at concrete inputs: a RuntimeError from the
new-API reset propagates unmodified, and a TypeError from it is replaced by
the old-API path. -/
theorem exception_propagation_amended_w :
    GymEnv.reset none none newApiBoom oldSeedNoop oldResetConst 0 =
      Except.error (PyErr.other "RuntimeError: boom") ∧
    GymEnv.reset none (some 5) newApiTypeErr oldSeedNoop oldResetConst 0 =
      GymEnv.oldApiPath (GymEnv.resolveSeed none (some 5)) oldSeedNoop
        oldResetConst 0 :=
  ⟨(exception_propagation_amended (V := Nat) 0).2.1 Nat none none newApiBoom
      oldSeedNoop oldResetConst "RuntimeError: boom" rfl,
   (exception_propagation_amended (V := Nat) 0).2.2.1 Nat none (some 5)
      newApiTypeErr oldSeedNoop oldResetConst
      "reset got an unexpected keyword argument seed" rfl⟩

/-- C3 counterexample: the claim says the turn counter starts at 0 after
reset, but GymEnv.reset never writes the turn counter: resetting an
environment whose turn counter is 1 succeeds and reports turn 1, not 0, at
this concrete input. -/
theorem turn_not_zero_after_reset_cex :
    GymEnv.reset none none newApiConst oldSeedNoop oldResetConst 1 =
      Except.ok (7, 1) ∧ (1 : Nat) ≠ 0 :=
  ⟨rfl, by decide⟩

/-- C3 (amended): reset leaves the turn counter unchanged (it is not reset
to 0); every accepted step advances the counter to (turn + 1) mod
num_players, so a counter that starts at 0 equals m mod num_players after m
accepted steps, and after any accepted step the counter lies in
[0, num_players) whenever num_players >= 1; the counter is owned by the
wrapper alone. -/
theorem turn_rotation_amended {V : Type} (truthy : V → Bool) (P : Nat) :
    (∀ (t : Nat) (res : List V) (out : GymEnv.StepReturn V),
      GymEnv.step truthy P t (Except.ok res) = Except.ok out →
        out.turn = (t + 1) % P) ∧
    (∀ m : Nat, GymEnv.turn_after P m = m % P) ∧
    (1 ≤ P → ∀ (t : Nat) (res : List V) (out : GymEnv.StepReturn V),
      GymEnv.step truthy P t (Except.ok res) = Except.ok out → out.turn < P) ∧
    (∀ (O : Type) (sa st : Option Int)
      (napi : Option Int → Except PyErr (O × V))
      (osd : Int → Except PyErr Unit) (ors : Except PyErr O)
      (t : Nat) (obs : O) (tr : Nat),
      GymEnv.reset sa st napi osd ors t = Except.ok (obs, tr) → tr = t) := by
  have hstep : ∀ (t : Nat) (res : List V) (out : GymEnv.StepReturn V),
      GymEnv.step truthy P t (Except.ok res) = Except.ok out →
        out.turn = (t + 1) % P := by
    intro t res out h
    rcases res with _ | ⟨a, _ | ⟨b, _ | ⟨c, _ | ⟨d, _ | ⟨e, _ | ⟨f, tail⟩⟩⟩⟩⟩⟩ <;>
      simp only [GymEnv.step] at h <;> first
        | (rw [Except.ok.injEq] at h; subst h; rfl)
        | exact absurd h (by simp)
  refine ⟨hstep, ?_, ?_, ?_⟩
  · intro m
    induction m with
    | zero => simp [GymEnv.turn_after]
    | succ m ih => rw [GymEnv.turn_after, ih, Nat.mod_add_mod]
  · intro hP t res out h
    rw [hstep t res out h]
    exact Nat.mod_lt _ (by omega)
  · intro O sa st napi osd ors t obs tr h
    rcases hn : napi (GymEnv.resolveSeed sa st) with e | p
    · rcases e with msg | msg | msg <;> simp only [GymEnv.reset, hn] at h
      · exact oldApiPath_turn _ osd ors t obs tr h
      · exact absurd h (by simp)
      · exact absurd h (by simp)
    · simp only [GymEnv.reset, hn, Except.ok.injEq, Prod.mk.injEq] at h
      exact h.2.symm

/-- Witness for C3 (amended) at concrete inputs: a 5-tuple step from turn 1
with two players lands on turn (1 + 1) mod 2 which is below 2, the
turn after five accepted steps from 0 is 5 mod 2, and a successful reset
from turn 1 reports turn 1. -/
theorem turn_rotation_amended_w :
    (⟨7, 3, 0, 0, 9⟩ : GymEnv.StepReturn Nat).turn = (1 + 1) % 2 ∧
    GymEnv.turn_after 2 5 = 5 % 2 ∧
    (⟨7, 3, 0, 0, 9⟩ : GymEnv.StepReturn Nat).turn < 2 ∧
    (1 : Nat) = 1 :=
  ⟨(turn_rotation_amended natTruthy 2).1 1 [7, 3, 0, 0, 9] ⟨7, 3, 0, 0, 9⟩ rfl,
   (turn_rotation_amended natTruthy 2).2.1 5,
   (turn_rotation_amended natTruthy 2).2.2.1 (by decide) 1 [7, 3, 0, 0, 9]
     ⟨7, 3, 0, 0, 9⟩ rfl,
   (turn_rotation_amended natTruthy 2).2.2.2 Nat none none newApiConst
     oldSeedNoop oldResetConst 1 7 1 rfl⟩

/-- Helper: one run_one_step call reports the environment's done flag. -/
theorem run_one_step_done {O A : Type} (lb : String) (training : Bool)
    (act : List O → A) (e : EnvStepRes O) (obs : O) (ti : TransitionInfo O)
    (m : EpisodeMetrics) :
    (SingleAgentRunner.run_one_step lb training act e obs ti m).done = e.done :=
  rfl

/-- Helper: one run_one_step call hands the environment's next observation
back to the loop. -/
theorem run_one_step_next {O A : Type} (lb : String) (training : Bool)
    (act : List O → A) (e : EnvStepRes O) (obs : O) (ti : TransitionInfo O)
    (m : EpisodeMetrics) :
    (SingleAgentRunner.run_one_step lb training act e obs ti m).nextObservation =
      e.nextObservation :=
  rfl

/-- Helper: regardless of the buffering policy and the training flag, one
run_one_step call adds the step's reward to the agent's reward and
increments both episode-length counters exactly once. -/
theorem run_one_step_metrics {O A : Type} (lb : String) (training : Bool)
    (act : List O → A) (e : EnvStepRes O) (obs : O) (ti : TransitionInfo O)
    (m : EpisodeMetrics) :
    (SingleAgentRunner.run_one_step lb training act e obs ti m).metrics =
      ⟨m.reward + e.reward, m.episode_length + 1, m.full_episode_length + 1⟩ := by
  by_cases h : lb = "fifo" <;>
    simp [SingleAgentRunner.run_one_step, Runner.run_one_step, h]

/-- Helper: the loop invariant of SingleAgentRunner's episode loop. For a
run with `remaining` allowed iterations starting at step counter `steps`,
the final step counter k satisfies steps <= k <= steps + remaining; the
metrics have accumulated exactly the rewards of trace indices [steps, k)
and k - steps increments of each length counter; if no step in range
signals done the loop exhausts its budget; and if trace index j is the
first in range to signal done, the loop stops after the call at index j,
with k = j + 1. -/
theorem runLoop_spec {O A : Type} (lb : String) (training : Bool)
    (act : List O → A) (env : Nat → EnvStepRes O) :
    ∀ (remaining steps : Nat) (obs : O) (ti : TransitionInfo O)
      (m m' : EpisodeMetrics) (k : Nat),
      SingleAgentRunner.runLoop lb training act env remaining steps obs ti m = (m', k) →
      steps ≤ k ∧ k ≤ steps + remaining ∧
      m'.reward = m.reward + ∑ i in Finset.Ico steps k, (env i).reward ∧
      m'.episode_length = m.episode_length + (k - steps) ∧
      m'.full_episode_length = m.full_episode_length + (k - steps) ∧
      ((∀ i, steps ≤ i → i < steps + remaining → (env i).done = false) →
        k = steps + remaining) ∧
      (∀ j, steps ≤ j → j < steps + remaining → (env j).done = true →
        (∀ i, steps ≤ i → i < j → (env i).done = false) → k = j + 1) := by
  intro remaining
  induction remaining with
  | zero =>
      intro steps obs ti m m' k h
      simp only [SingleAgentRunner.runLoop, Prod.mk.injEq] at h
      obtain ⟨rfl, rfl⟩ := h
      refine ⟨le_refl _, by omega, by simp, by simp, by simp, by omega, ?_⟩
      intro j hj hj' _ _
      omega
  | succ r ih =>
      intro steps obs ti m m' k h
      simp only [SingleAgentRunner.runLoop] at h
      rw [run_one_step_done] at h
      by_cases hd : (env steps).done
      · rw [if_pos hd] at h
        rw [run_one_step_metrics, Prod.mk.injEq] at h
        obtain ⟨rfl, rfl⟩ := h
        have hsum : (∑ i in Finset.Ico steps (steps + 1), (env i).reward) =
            (env steps).reward := by
          rw [Finset.sum_eq_sum_Ico_succ_bot (by omega)]
          simp
        refine ⟨by omega, by omega, by simp [hsum], by simp, by simp,
          ?_, ?_⟩
        · intro hall
          exact absurd (hall steps (le_refl _) (by omega)) (by simp [hd])
        · intro j hj hj' hdj hbefore
          rcases Nat.lt_or_ge steps j with hlt | hge
          · exact absurd (hbefore steps (le_refl _) hlt) (by simp [hd])
          · omega
      · rw [if_neg hd] at h
        rw [run_one_step_metrics, run_one_step_next] at h
        obtain ⟨h1, h2, h3, h4, h5, h6, h7⟩ := ih (steps + 1) _ _ _ m' k h
        have hk : steps + 1 ≤ k := h1
        have hsplit : (∑ i in Finset.Ico steps k, (env i).reward) =
            (env steps).reward + ∑ i in Finset.Ico (steps + 1) k, (env i).reward :=
          Finset.sum_eq_sum_Ico_succ_bot (by omega) _
        refine ⟨by omega, by omega, ?_, ?_, ?_, ?_, ?_⟩
        · rw [h3, hsplit]
          simp only []
          omega
        · rw [h4]
          simp only []
          omega
        · rw [h5]
          simp only []
          omega
        · intro hall
          have := h6 (fun i hi hi' => hall i (by omega) (by omega))
          omega
        · intro j hj hj' hdj hbefore
          have hjs : steps < j := by
            rcases Nat.lt_or_ge steps j with hlt | hge
            · exact hlt
            · have : j = steps := by omega
              subst this
              exact absurd hdj (by simp [hd])
          exact h7 j (by omega) (by omega) hdj
            (fun i hi hi' => hbefore i (by omega) hi')

/-- C2: for every episode run by run_episode, if the environment first
signals done on step number maxSteps (the call with step counter
maxSteps - 1), the episode executes exactly maxSteps calls to run_one_step
— neither fewer nor more; and if the environment never signals done within
the budget, the episode executes exactly maxSteps calls and then
terminates. -/
theorem run_episode_termination_boundary {O A : Type} (lb : String)
    (training : Bool) (act : List O → A) (env : Nat → EnvStepRes O)
    (stackSize maxSteps : Nat) (initObs : O) :
    ((∀ i, i < maxSteps → (env i).done = false) →
      (SingleAgentRunner.run_episode lb training act env stackSize maxSteps
        initObs).2 = maxSteps) ∧
    (1 ≤ maxSteps → (env (maxSteps - 1)).done = true →
      (∀ i, i < maxSteps - 1 → (env i).done = false) →
      (SingleAgentRunner.run_episode lb training act env stackSize maxSteps
        initObs).2 = maxSteps) := by
  have h := runLoop_spec lb training act env maxSteps 0 initObs
    (TransitionInfo.start_agent stackSize initObs) Runner.create_episode_metrics
    (SingleAgentRunner.run_episode lb training act env stackSize maxSteps initObs).1
    (SingleAgentRunner.run_episode lb training act env stackSize maxSteps initObs).2
    rfl
  constructor
  · intro hnever
    have := h.2.2.2.2.2.1 (fun i _ hi => hnever i (by omega))
    omega
  · intro hM hdone hbefore
    have := h.2.2.2.2.2.2 (maxSteps - 1) (by omega) (by omega) hdone
      (fun i _ hi => hbefore i hi)
    omega

/-- Witness for C2 at concrete inputs: with a step budget of 2, an
environment that is never done yields exactly 2 steps, and an environment
that is first done on its second step (the budget boundary) also yields
exactly 2 steps. -/
theorem run_episode_termination_boundary_w :
    (SingleAgentRunner.run_episode "fifo" true actLen envSeqNever 1 2
      (0 : Nat)).2 = 2 ∧
    (SingleAgentRunner.run_episode "lofo" true actLen envSeqDoneAt1 1 2
      (0 : Nat)).2 = 2 :=
  ⟨(run_episode_termination_boundary "fifo" true actLen envSeqNever 1 2 0).1
      (by decide),
   (run_episode_termination_boundary "lofo" true actLen envSeqDoneAt1 1 2 0).2
      (by decide) (by decide) (by decide)⟩

/-- C7: for every episode consisting of k accepted steps with rewards
r_1 ... r_k, the accumulated reward equals their sum, the per-agent
episode_length equals k, and the global full_episode_length equals k;
moreover each of the three aggregates is incremented exactly once per
run_one_step call. -/
theorem run_episode_metrics_accumulation {O A : Type} (lb : String)
    (training : Bool) (act : List O → A) (env : Nat → EnvStepRes O)
    (stackSize maxSteps : Nat) (initObs : O) :
    (SingleAgentRunner.run_episode lb training act env stackSize maxSteps
        initObs).1.reward =
      ∑ i in Finset.range (SingleAgentRunner.run_episode lb training act env
        stackSize maxSteps initObs).2, (env i).reward ∧
    (SingleAgentRunner.run_episode lb training act env stackSize maxSteps
        initObs).1.episode_length =
      (SingleAgentRunner.run_episode lb training act env stackSize maxSteps
        initObs).2 ∧
    (SingleAgentRunner.run_episode lb training act env stackSize maxSteps
        initObs).1.full_episode_length =
      (SingleAgentRunner.run_episode lb training act env stackSize maxSteps
        initObs).2 ∧
    (∀ (e : EnvStepRes O) (obs : O) (ti : TransitionInfo O) (m : EpisodeMetrics),
      (SingleAgentRunner.run_one_step lb training act e obs ti m).metrics =
        ⟨m.reward + e.reward, m.episode_length + 1, m.full_episode_length + 1⟩) := by
  have h := runLoop_spec lb training act env maxSteps 0 initObs
    (TransitionInfo.start_agent stackSize initObs) Runner.create_episode_metrics
    (SingleAgentRunner.run_episode lb training act env stackSize maxSteps initObs).1
    (SingleAgentRunner.run_episode lb training act env stackSize maxSteps initObs).2
    rfl
  refine ⟨?_, ?_, ?_, fun e obs ti m => run_one_step_metrics lb training act e obs ti m⟩
  · rw [h.2.2.1, Finset.range_eq_Ico]
    simp [Runner.create_episode_metrics]
  · rw [h.2.2.2.1]
    simp [Runner.create_episode_metrics]
  · rw [h.2.2.2.2.1]
    simp [Runner.create_episode_metrics]

/-- C5: under both the "fifo" and the "lofo" buffering policy, the record
passed to record_info carries the raw (non-stacked) observation taken
before the step, never the stacked form; under "lofo" the record handed to
the agent's update (deep-copied before the overwrite) still carries the
stacked observation, and the observation slot is overwritten with the raw
observation after that update and before record_info is called. -/
theorem record_info_receives_raw_observation {O A : Type} (lb : String)
    (training : Bool) (act : List O → A) (e : EnvStepRes O) (obs : O)
    (ti : TransitionInfo O) (m : EpisodeMetrics)
    (hlb : lb = "fifo" ∨ lb = "lofo") :
    (SingleAgentRunner.run_one_step lb training act e obs ti m).recordedRecord.observation =
      Sum.inl obs ∧
    (lb = "lofo" → training = true →
      (SingleAgentRunner.run_one_step lb training act e obs ti m).updateRecord =
        some ⟨Sum.inr (ti.get_stacked_state obs).1, e.reward,
          act (ti.get_stacked_state obs).1, e.done, e.info⟩) := by
  rcases hlb with h | h <;> subst h
  · exact ⟨rfl, fun hcontra _ => absurd hcontra (by decide)⟩
  · exact ⟨rfl, fun _ htr => by subst htr; rfl⟩

/-- Witness for C5 at concrete inputs under the "lofo" policy: record_info
receives the raw observation 5 while the update received the stacked one. -/
theorem record_info_receives_raw_observation_w :
    (SingleAgentRunner.run_one_step "lofo" true actLen envResA 5 tiA
      Runner.create_episode_metrics).recordedRecord.observation = Sum.inl 5 ∧
    (SingleAgentRunner.run_one_step "lofo" true actLen envResA 5 tiA
      Runner.create_episode_metrics).updateRecord =
      some ⟨Sum.inr (tiA.get_stacked_state 5).1, envResA.reward,
        actLen (tiA.get_stacked_state 5).1, envResA.done, envResA.info⟩ :=
  ⟨(record_info_receives_raw_observation "lofo" true actLen envResA 5 tiA
      Runner.create_episode_metrics (Or.inr rfl)).1,
   (record_info_receives_raw_observation "lofo" true actLen envResA 5 tiA
      Runner.create_episode_metrics (Or.inr rfl)).2 rfl rfl⟩

/-- C6: in every step in which the agent's update is invoked (training
mode), the observation field of the transition record the update receives
is policy-dependent: under "fifo" it is the raw (unstacked) observation
taken before the step, and under "lofo" it is the stacked observation
computed before the step was taken. -/
theorem update_observation_by_policy {O A : Type} (act : List O → A)
    (e : EnvStepRes O) (obs : O) (ti : TransitionInfo O) (m : EpisodeMetrics) :
    (SingleAgentRunner.run_one_step "fifo" true act e obs ti m).updateRecord =
      some ⟨Sum.inl obs, e.reward, act (ti.get_stacked_state obs).1, e.done,
        e.info⟩ ∧
    (SingleAgentRunner.run_one_step "lofo" true act e obs ti m).updateRecord =
      some ⟨Sum.inr (ti.get_stacked_state obs).1, e.reward,
        act (ti.get_stacked_state obs).1, e.done, e.info⟩ :=
  ⟨rfl, rfl⟩

/-- Helper: pushing a list of observations into a buffer whose contents are
m copies of the initial observation followed by some suffix drops one
initial copy per push and appends the pushed observations in order. -/
theorem push_all_replicate {O : Type} (init : O) :
    ∀ (os : List O) (m : Nat) (pre : List O), os.length ≤ m →
      TransitionInfo.push_all ⟨List.replicate m init ++ pre⟩ os =
        ⟨List.replicate (m - os.length) init ++ (pre ++ os)⟩ := by
  intro os
  induction os with
  | nil =>
      intro m pre _
      simp [TransitionInfo.push_all]
  | cons o rest ih =>
      intro m pre h
      obtain ⟨m', rfl⟩ : ∃ m', m = m' + 1 :=
        ⟨m - 1, by simp at h; omega⟩
      have hstep : (TransitionInfo.get_stacked_state
          ⟨List.replicate (m' + 1) init ++ pre⟩ o).2 =
          ⟨List.replicate m' init ++ (pre ++ [o])⟩ := by
        simp [TransitionInfo.get_stacked_state, List.replicate_succ]
      simp only [TransitionInfo.push_all, List.foldl_cons] at *
      rw [hstep, ih m' (pre ++ [o]) (by simp at h; omega)]
      simp

/-- C10: run_episode re-initializes the stacked-observation buffer for the
acting agent from the environment's initial observation, so that for any
stack depth N, immediately after the start call the stacked observation
equals the initial observation repeated N times, and after k subsequent
pushes (k < N) the stack holds the initial observation repeated N - k times
followed by the k most recent observations in order. -/
theorem stacked_observation_invariant {O : Type} (N : Nat) (init : O)
    (os : List O) (hk : os.length < N) :
    (TransitionInfo.start_agent N init).stack = List.replicate N init ∧
    TransitionInfo.push_all (TransitionInfo.start_agent N init) os =
      ⟨List.replicate (N - os.length) init ++ os⟩ := by
  constructor
  · rfl
  · have h := push_all_replicate init os N [] (by omega)
    simpa using h

/-- Witness for C10 at concrete inputs: stack depth 3, initial observation
0, then pushing 1 and 2. -/
theorem stacked_observation_invariant_w :
    (TransitionInfo.start_agent 3 (0 : Nat)).stack = List.replicate 3 0 ∧
    TransitionInfo.push_all (TransitionInfo.start_agent 3 (0 : Nat)) [1, 2] =
      ⟨List.replicate (3 - List.length [1, 2]) 0 ++ [1, 2]⟩ :=
  stacked_observation_invariant 3 0 [1, 2] (by decide)
